import Mathlib

/-!
Verification of the tpch-psql benchmark-execution engine.

This file gives a shallow embedding of the core of the repository
(`benchmark.py`, `query_stream.py`, `refresh_pair.py`, `connection.py`)
and proves or refutes the stated properties of the specification.

Modelling conventions:
* Python floats are modelled by real numbers (`ℝ`) where the code computes
  metric formulas with `pow`, and by rationals (`ℚ`) where only exact
  arithmetic and comparisons matter (wall-clock durations).
* Python `None` mixed with floats is modelled by an explicit `PyVal` type,
  and Python's `min`/`max` (which raise `TypeError` when `<` is applied to
  `NoneType` and `float`) by `Except`-valued folds.
* Python list indexing `l[i]` is modelled by `List.get?` inside the
  `Option` monad, so an out-of-range access makes the whole run fail,
  as an `IndexError` would.
* Wall-clock measurement is abstracted by a duration oracle
  `dur : ℕ → ℚ` giving, for each canonical query index, the duration
  `toc - tic` observed for the single execution of that query.
-/

namespace TpchPsql

/-! ### Python positional-argument binding

`Benchmark.__init__` (src/benchmark.py, lines 19-24) constructs
`QueryStream` objects; `QueryStream.__init__` (src/query_stream.py, line 9)
declares nine positional parameters after `self`, none with a default.
Python binds positional arguments to parameters left to right and raises
`TypeError` when required parameters are left unbound (or when extra
positional arguments remain). -/

/-- Outcome of binding a Python positional call: either every parameter is
bound (pairing each parameter name with the argument expression bound to
it), or the call raises `TypeError`, carrying the required parameters left
unbound (empty for the too-many-arguments case). -/
inductive PyBind where
  | bound (pairs : List (String × String))
  | typeError (missingParams : List String)
deriving DecidableEq, Repr

/-- Python positional binding for a parameter list with no defaults and no
varargs: left-to-right pairing; `TypeError` on a length mismatch. -/
def bindPositional (params args : List String) : PyBind :=
  if args.length < params.length then .typeError (params.drop args.length)
  else if args.length = params.length then .bound (params.zip args)
  else .typeError []

/-- The positional parameters of `QueryStream.__init__` after `self`
(src/query_stream.py, line 9), in declaration order; none has a default. -/
def queryStreamInitParams : List String :=
  ["num", "replicas", "queries", "routes", "order", "rf1_data", "rf2_data",
   "num_refresh_pairs", "timer_queue"]

/-- The positional arguments `Benchmark.__init__` passes when constructing
the power stream (src/benchmark.py, line 19). -/
def power_stream_call_args : List String :=
  ["0", "replicas", "queries", "routes", "QS_ORDER[0]", "rf1_data[0]",
   "rf2_data[0]", "self.timer_queue"]

/-- The positional arguments `Benchmark.__init__` passes when constructing
the refresh stream (src/benchmark.py, line 20). -/
def refresh_stream_call_args (n_query_streams : ℕ) : List String :=
  [toString (n_query_streams + 1), "replicas", "queries", "routes", "[]",
   "rf1_data[-1]", "rf2_data[-1]", "self.timer_queue"]

/-- The positional arguments `Benchmark.__init__` passes when constructing
throughput stream `i` (src/benchmark.py, line 24). -/
def throughput_stream_call_args (i : ℕ) : List String :=
  [toString i, "replicas", "queries", "routes", "QS_ORDER[i % 100]",
   "rf1_data", "rf2_data", "self.timer_queue"]

/-- Every `QueryStream(...)` call `Benchmark.__init__` attempts, in program
order: the power stream, the refresh stream, then throughput streams
`1 .. n_query_streams` (src/benchmark.py, lines 19-24). -/
def benchmark_init_stream_calls (n_query_streams : ℕ) : List (List String) :=
  power_stream_call_args :: refresh_stream_call_args n_query_streams ::
    (List.range n_query_streams).map (fun i => throughput_stream_call_args (i + 1))

/-! ### Connection handles (src/connection.py) -/

/-- An opaque live database session (the `psycopg` connection object). -/
structure Session where
  sid : ℕ
deriving DecidableEq, Repr

/-- Result of `Connection.conn()`: the live session, or the use-after-close
branch (src/connection.py, lines 30-31: log an error that the connection
has already been closed and return `None`). -/
inductive ConnResult where
  | ok (session : Session)
  | useAfterClose
deriving DecidableEq, Repr

/-- State of a `Connection` handle: the replica it belongs to and the
`_connection` field, which is `some` session while open and `none` after
`close` (src/connection.py). -/
structure Connection where
  replica_id : ℕ
  _connection : Option Session
deriving DecidableEq, Repr

/-- `Connection.conn` (src/connection.py, lines 26-31): return the session
if it is still set, otherwise signal use-after-close. -/
def Connection.conn (c : Connection) : ConnResult :=
  match c._connection with
  | some s => .ok s
  | none => .useAfterClose

/-- `Connection.close` (src/connection.py, lines 33-36): if the session is
still set, release it (counted by the second component) and clear the
field; otherwise do nothing. -/
def Connection.close (c : Connection) : Connection × ℕ :=
  match c._connection with
  | some _ => ({ c with _connection := none }, 1)
  | none => (c, 0)

/-! ### Refresh pairs (src/refresh_pair.py) -/

/-- The RF2 delete statement against the line-item (child) table for one
order key (src/refresh_pair.py, line 30, with the key spliced in for
`%s`). -/
def deleteFromLineitem (orderkey : String) : String :=
  "DELETE FROM LINEITEM WHERE L_ORDERKEY = " ++ orderkey

/-- The RF2 delete statement against the orders (parent) table for one
order key (src/refresh_pair.py, line 31). -/
def deleteFromOrders (orderkey : String) : String :=
  "DELETE FROM ORDERS WHERE O_ORDERKEY = " ++ orderkey

/-- `RefreshPair.generate_queries_for_rf2` (src/refresh_pair.py,
lines 16-32): for each order key in order, append the line-item delete and
then the orders delete to the accumulated query list. -/
def generate_queries_for_rf2 (rf2_data : List String) : List String :=
  rf2_data.foldl
    (fun queries orderkey =>
      queries ++ [deleteFromLineitem orderkey, deleteFromOrders orderkey])
    []

/-- A `RefreshPair` object: RF1 rows (one order row with its line-item
rows, kept opaque), the precomputed RF2 delete statements, and the replica
it is scoped to. -/
structure RefreshPair where
  rf1_data : List (String × List String)
  rf2_data : List String
  replica_id : ℕ
deriving DecidableEq, Repr

/-- `RefreshPair.__init__` (src/refresh_pair.py, lines 7-14): the RF2
statements are generated here, at construction time, and stored in
`rf2_data`. -/
def RefreshPair.init (rf1_data : List (String × List String))
    (rf2_data : List String) (replica_id : ℕ) : RefreshPair :=
  { rf1_data := rf1_data
    rf2_data := generate_queries_for_rf2 rf2_data
    replica_id := replica_id }

/-- The statements `RefreshPair.run_refresh_function_2` executes inside the
timed region, in order (src/refresh_pair.py, lines 62-66: it iterates
`self.rf2_data` and executes each query without any further generation). -/
def RefreshPair.run_refresh_function_2_statements (rp : RefreshPair) : List String :=
  rp.rf2_data

/-! ### The stream executor (src/query_stream.py)

`_run_query_set` (lines 75-83) runs, for `i` in `range(22)`:
`execute = order[i] - 1`, `replica = routes[execute]`, executes
`queries[execute]` on the cursor of that replica, and stores the measured
duration at `query_times[execute]`. We model two observables of the same
loop: the sequence of (canonical query index, replica) executions, and the
final `query_times` array. -/

namespace QueryStream

/-- One iteration of the `_run_query_set` loop: read `order[i]`, compute
the canonical index `execute`, look up the routed replica; the pair
(canonical index, replica) is the execution this iteration issues. -/
def run_query_set_step (order routes : List ℕ) (i : ℕ) : Option (ℕ × ℕ) := do
  let q ← order.get? i
  let execute := q - 1
  let replica ← routes.get? execute
  pure (execute, replica)

/-- The sequence of (canonical query index, replica) executions issued by
`_run_query_set` (src/query_stream.py, lines 75-80), in execution order;
`none` if an index is out of range. -/
def run_query_set_events (order routes : List ℕ) : Option (List (ℕ × ℕ)) :=
  (List.range 22).mapM (run_query_set_step order routes)

/-- The `query_times` array produced by `_run_query_set`
(src/query_stream.py, lines 75-83): initialised to 22 `None`s
(line 39) and written at position `execute` with the duration measured for
that execution; `dur` is the duration oracle indexed by canonical query
index. -/
def run_query_set_times (order routes : List ℕ) (dur : ℕ → ℚ) :
    Option (List (Option ℚ)) :=
  (List.range 22).foldlM
    (fun query_times i => do
      let q ← order.get? i
      let execute := q - 1
      let _ ← routes.get? execute
      pure (query_times.set execute (some (dur execute))))
    (List.replicate 22 none)

/-- The observable steps of a power-mode run, in program order. -/
inductive PowerEvent where
  | rf1 (iteration : ℕ)
  | rf2 (iteration : ℕ)
  | query (canonical : ℕ) (replica : ℕ)
  | finalise
deriving DecidableEq, BEq, Repr

/-- The event trace of `QueryStream.run_power` (src/query_stream.py,
lines 44-53): refresh function 1 of iteration 0, then the query set, then
refresh function 2 of iteration 0, then finalisation. -/
def run_power_trace (order routes : List ℕ) : Option (List PowerEvent) := do
  let qevs ← run_query_set_events order routes
  pure (PowerEvent.rf1 0 ::
    (qevs.map (fun p => PowerEvent.query p.1 p.2) ++
      [PowerEvent.rf2 0, PowerEvent.finalise]))

end QueryStream

/-! ### Timing samples and the result-channel values (src/query_stream.py
`_finalise`, src/benchmark.py `get_results`) -/

/-- A Python value that is either `None` or a float timestamp; `start` and
`end` of a timing sample have this type. -/
inductive PyVal where
  | none
  | num (q : ℚ)
deriving DecidableEq, Repr

/-- Python's `<` on timing values: defined between two floats, raises
`TypeError` between `NoneType` and `float` (and between two `None`s). -/
def pyLt : PyVal → PyVal → Except String Bool
  | .num a, .num b => .ok (decide (a < b))
  | _, _ => .error "TypeError"

/-- Python's `>` on timing values, same domain restrictions as `pyLt`. -/
def pyGt : PyVal → PyVal → Except String Bool
  | .num a, .num b => .ok (decide (b < a))
  | _, _ => .error "TypeError"

/-- Python's `min` over a list: `ValueError` on an empty list, otherwise
keep the current minimum, replacing it whenever a later element compares
strictly below it; any comparison may raise. -/
def pyMin : List PyVal → Except String PyVal
  | [] => .error "ValueError"
  | x :: xs =>
    xs.foldlM (fun m y => do
      let b ← pyLt y m
      pure (if b then y else m)) x

/-- Python's `max` over a list, dually. -/
def pyMax : List PyVal → Except String PyVal
  | [] => .error "ValueError"
  | x :: xs =>
    xs.foldlM (fun m y => do
      let b ← pyGt y m
      pure (if b then y else m)) x

/-- The timing sample a stream puts on the timer queue in `_finalise`
(src/query_stream.py, lines 110-120); only the fields `get_results`
inspects for the throughput window are modelled. -/
structure TimingSample where
  mode : String
  start : PyVal
  end_ : PyVal
deriving DecidableEq, Repr

/-- The sample emitted by a stream run in throughput mode:
`run_throughput` (src/query_stream.py, lines 55-62) never assigns
`start_time` or `end_time`, so both stay `None` from initialisation
(lines 38, 41). -/
def run_throughput_sample : TimingSample :=
  { mode := "throughput", start := .none, end_ := .none }

/-- `through_start` in `Benchmark.get_results` (src/benchmark.py,
line 100): Python `min` over the `start` fields of every non-power
sample. -/
def get_results_through_start (throughput_results : List TimingSample) :
    Except String PyVal :=
  pyMin (throughput_results.map (fun r => r.start))

/-- `through_end` in `Benchmark.get_results` (src/benchmark.py, line 101):
Python `max` over the `end` fields of every non-power sample. -/
def get_results_through_end (throughput_results : List TimingSample) :
    Except String PyVal :=
  pyMax (throughput_results.map (fun r => r.end_))

/-! ### The orchestrator's metric formulas (src/benchmark.py) -/

/-- The state of a `Benchmark` object needed by the metric formulas. -/
structure Benchmark where
  n_query_streams : ℕ
  scale_factor : ℤ
deriving DecidableEq, Repr

/-- `Benchmark._power_result` (src/benchmark.py, lines 64-73): multiply the
22 power-test query durations and the 2 refresh durations together by a
running product starting at 1, then return
`(3600 * scale_factor) / pow(query_res * refresh_res, 1/24)`. -/
noncomputable def Benchmark._power_result (b : Benchmark) (qi0 ri0 : List ℝ) : ℝ :=
  let query_res := qi0.foldl (fun acc query_time => acc * query_time) 1
  let refresh_res := ri0.foldl (fun acc refresh_time => acc * refresh_time) 1
  (3600 * (b.scale_factor : ℝ)) / (query_res * refresh_res) ^ ((1 : ℝ) / 24)

/-- `Benchmark._throughput_result` (src/benchmark.py, lines 75-76):
`(n_query_streams * 22 * 3600 * scale_factor) / ts`. -/
noncomputable def Benchmark._throughput_result (b : Benchmark) (ts : ℝ) : ℝ :=
  ((b.n_query_streams : ℝ) * 22 * 3600 * (b.scale_factor : ℝ)) / ts

/-- The metric triple `Benchmark.get_results` returns (src/benchmark.py,
lines 103-107) once the power sample's durations `qi`, `ri` and the
throughput window `ts` are in hand: `qphh = pow(power * throughput, 1/2)`,
returned together with the power and throughput metrics, in that order. -/
noncomputable def Benchmark.get_results_metrics (b : Benchmark)
    (qi ri : List ℝ) (ts : ℝ) : ℝ × ℝ × ℝ :=
  let power_metric := b._power_result qi ri
  let throughput_metric := b._throughput_result ts
  let qphh_metric := (power_metric * throughput_metric) ^ ((1 : ℝ) / 2)
  (qphh_metric, power_metric, throughput_metric)

/-! ### Helper lemmas -/

/-- The running product in `_power_result` is the list product. -/
lemma foldl_mul_eq_prod (l : List ℝ) :
    l.foldl (fun acc x => acc * x) 1 = l.prod :=
  List.prod_eq_foldl.symm

/-- Concrete evaluation of the power formula on 22 unit query durations and
two unit refresh durations at scale factor 1. -/
lemma power_result_ones :
    Benchmark._power_result ⟨3, 1⟩ (List.replicate 22 (1 : ℝ)) [1, 1] = 3600 := by
  unfold Benchmark._power_result
  rw [foldl_mul_eq_prod, foldl_mul_eq_prod]
  simp [List.prod_replicate, Real.one_rpow]

/-! ### C1: the power metric formula -/

/-- C1: for every list of 22 positive query durations, every pair of
positive refresh durations and every scale factor, `_power_result` equals
`(3600 * SF) / (Πqi * Πri)^(1/24)`. -/
theorem power_result_formula (b : Benchmark) (qi ri : List ℝ)
    (hq : qi.length = 22) (hr : ri.length = 2)
    (hqpos : ∀ x ∈ qi, 0 < x) (hrpos : ∀ x ∈ ri, 0 < x) :
    b._power_result qi ri =
      (3600 * (b.scale_factor : ℝ)) / (qi.prod * ri.prod) ^ ((1 : ℝ) / 24) := by
  unfold Benchmark._power_result
  rw [foldl_mul_eq_prod, foldl_mul_eq_prod]

/-- Witness for C1 at the specification's synthetic inputs: 22 unit query
durations, unit refresh durations, scale factor 1 give exactly 3600. -/
theorem power_result_formula_witness :
    Benchmark._power_result ⟨2, 1⟩ (List.replicate 22 (1 : ℝ)) [1, 1] = 3600 := by
  have h := power_result_formula ⟨2, 1⟩ (List.replicate 22 (1 : ℝ)) [1, 1]
    (by simp) (by simp)
    (by intro x hx; rw [List.eq_of_mem_replicate hx]; norm_num)
    (by intro x hx; fin_cases hx <;> norm_num)
  rw [h]
  simp [List.prod_replicate, Real.one_rpow]

/-! ### C2: the throughput metric formula -/

/-- C2 counterexample: with 2 streams, scale factor 1 and a 3600-second
window the code returns 44, not 158400 as the claim asserts. -/
theorem throughput_result_not_158400 :
    Benchmark._throughput_result ⟨2, 1⟩ 3600 = 44 ∧
    Benchmark._throughput_result ⟨2, 1⟩ 3600 ≠ 158400 := by
  constructor <;> norm_num [Benchmark._throughput_result]

/-- C2 (amended): `_throughput_result` is
`(n_streams * 22 * 3600 * SF) / elapsed`, and at `n_streams = 2`,
`elapsed = 3600`, `SF = 1` its value is `(2*22*3600)/3600 = 44`. -/
theorem throughput_result_formula :
    (∀ (b : Benchmark) (ts : ℝ),
      b._throughput_result ts =
        ((b.n_query_streams : ℝ) * 22 * 3600 * (b.scale_factor : ℝ)) / ts) ∧
    Benchmark._throughput_result ⟨2, 1⟩ 3600 = 44 := by
  refine ⟨fun b ts => rfl, ?_⟩
  norm_num [Benchmark._throughput_result]

/-! ### C3: every QueryStream construction raises TypeError -/

/-- C3: every `QueryStream(...)` call in `Benchmark.__init__` passes eight
positional arguments against nine required parameters; the timer queue
binds the `num_refresh_pairs` slot, `timer_queue` is left unbound, and the
call raises `TypeError`, so no stream is ever constructed. -/
theorem benchmark_init_type_error (n_query_streams : ℕ) :
    benchmark_init_stream_calls n_query_streams ≠ [] ∧
    ∀ args ∈ benchmark_init_stream_calls n_query_streams,
      args.length = 8 ∧
      bindPositional queryStreamInitParams args =
        .typeError ["timer_queue"] ∧
      (queryStreamInitParams.zip args).get? 7 =
        some ("num_refresh_pairs", "self.timer_queue") := by
  refine ⟨by simp [benchmark_init_stream_calls], ?_⟩
  intro args hargs
  simp only [benchmark_init_stream_calls, List.mem_cons, List.mem_map] at hargs
  rcases hargs with rfl | rfl | ⟨i, _, rfl⟩
  · exact ⟨rfl, rfl, rfl⟩
  · exact ⟨rfl, rfl, rfl⟩
  · exact ⟨rfl, rfl, rfl⟩

/-- Witness for C3: the power-stream construction, the first call
`Benchmark.__init__` makes, raises `TypeError` with `timer_queue`
unbound. -/
theorem benchmark_init_type_error_witness :
    bindPositional queryStreamInitParams power_stream_call_args =
      .typeError ["timer_queue"] :=
  ((benchmark_init_type_error 2).2 power_stream_call_args
    (by simp [benchmark_init_stream_calls])).2.1

/-! ### C5: the throughput window computation crashes on null bounds -/

/-- C5: evaluating the `get_results` throughput window on a pool holding
one throughput sample (whose `start`/`end` are `None`, as `run_throughput`
never sets them) and one refresh sample: Python's `min`/`max` compare
`None` with a float and raise `TypeError` instead of ignoring the nulls. -/
theorem get_results_window_type_error :
    run_throughput_sample.start = .none ∧
    run_throughput_sample.end_ = .none ∧
    get_results_through_start
        [run_throughput_sample,
         { mode := "refresh", start := .num 0, end_ := .num 10 }] =
      .error "TypeError" ∧
    get_results_through_end
        [run_throughput_sample,
         { mode := "refresh", start := .num 0, end_ := .num 10 }] =
      .error "TypeError" :=
  ⟨rfl, rfl, rfl, rfl⟩

/-! ### C8: RF2 delete statements -/

/-- Shifting the accumulator out of the RF2 fold. -/
lemma generate_queries_aux (keys : List String) (acc : List String) :
    keys.foldl
      (fun queries orderkey =>
        queries ++ [deleteFromLineitem orderkey, deleteFromOrders orderkey])
      acc =
    acc ++ keys.foldl
      (fun queries orderkey =>
        queries ++ [deleteFromLineitem orderkey, deleteFromOrders orderkey])
      [] := by
  induction keys generalizing acc with
  | nil => simp
  | cons k ks ih =>
    rw [List.foldl_cons, List.foldl_cons, ih, List.nil_append,
      ih [deleteFromLineitem k, deleteFromOrders k], List.append_assoc]

/-- The RF2 statement list unfolds one key at a time: child-table delete
first, parent-table delete second. -/
lemma generate_queries_cons (k : String) (ks : List String) :
    generate_queries_for_rf2 (k :: ks) =
      deleteFromLineitem k :: deleteFromOrders k ::
        generate_queries_for_rf2 ks := by
  unfold generate_queries_for_rf2
  rw [List.foldl_cons, List.nil_append, generate_queries_aux]
  rfl

/-- Per-key positions in the RF2 statement list. -/
lemma generate_queries_get (keys : List String) (j : ℕ) (k : String)
    (h : keys.get? j = some k) :
    (generate_queries_for_rf2 keys).get? (2 * j) =
      some (deleteFromLineitem k) ∧
    (generate_queries_for_rf2 keys).get? (2 * j + 1) =
      some (deleteFromOrders k) := by
  induction keys generalizing j with
  | nil => simp at h
  | cons k0 ks ih =>
    rw [generate_queries_cons]
    cases j with
    | zero =>
      simp only [List.get?_cons_zero, Option.some.injEq] at h
      subst h
      exact ⟨rfl, rfl⟩
    | succ j =>
      simp only [List.get?_cons_succ] at h
      have h2 : 2 * (j + 1) = (2 * j + 1) + 1 := by omega
      rw [h2]
      simpa using ih j h

/-- Length of the RF2 statement list. -/
lemma generate_queries_length (keys : List String) :
    (generate_queries_for_rf2 keys).length = 2 * keys.length := by
  induction keys with
  | nil => rfl
  | cons k ks ih => rw [generate_queries_cons]; simp [ih]; omega

/-- C8: the RF2 delete statements are precomputed at construction time and
`run_refresh_function_2` executes exactly that precomputed list; the list
has twice the length of the key list and holds, for the `j`-th key, the
line-item (child) delete at position `2j` immediately followed by the
orders (parent) delete at position `2j + 1`. -/
theorem rf2_precomputed (rf1 : List (String × List String))
    (keys : List String) (replica : ℕ) :
    (RefreshPair.init rf1 keys replica).run_refresh_function_2_statements =
      generate_queries_for_rf2 keys ∧
    (RefreshPair.init rf1 keys replica).rf2_data.length = 2 * keys.length ∧
    ∀ j k, keys.get? j = some k →
      (RefreshPair.init rf1 keys replica).rf2_data.get? (2 * j) =
        some (deleteFromLineitem k) ∧
      (RefreshPair.init rf1 keys replica).rf2_data.get? (2 * j + 1) =
        some (deleteFromOrders k) :=
  ⟨rfl, generate_queries_length keys, fun j k h => generate_queries_get keys j k h⟩

/-- Witness for C8 with two keys: four statements, and the second key's
child-table delete sits at position 2, its parent-table delete at
position 3. -/
theorem rf2_precomputed_witness :
    (RefreshPair.init [] ["101", "205"] 0).rf2_data.length = 2 * 2 ∧
    (RefreshPair.init [] ["101", "205"] 0).rf2_data.get? (2 * 1) =
      some (deleteFromLineitem "205") ∧
    (RefreshPair.init [] ["101", "205"] 0).rf2_data.get? (2 * 1 + 1) =
      some (deleteFromOrders "205") := by
  have h := rf2_precomputed [] ["101", "205"] 0
  exact ⟨h.2.1, (h.2.2 1 "205" rfl).1, (h.2.2 1 "205" rfl).2⟩

/-! ### C9: connection use-after-close -/

/-- C9: closing an open connection releases the session exactly once;
`conn()` on the closed handle signals use-after-close, and a second
`close` performs no further release and leaves the handle unchanged. -/
theorem connection_use_after_close (c : Connection) (s : Session)
    (h : c._connection = some s) :
    (c.close).2 = 1 ∧
    (c.close).1.conn = .useAfterClose ∧
    ((c.close).1.close).2 = 0 ∧
    ((c.close).1.close).1 = (c.close).1 := by
  simp [Connection.close, Connection.conn, h]

/-- Witness for C9 on a concrete open handle. -/
theorem connection_use_after_close_witness :
    ((Connection.close ⟨0, some ⟨7⟩⟩).1.conn = ConnResult.useAfterClose) ∧
    (Connection.close ⟨0, some ⟨7⟩⟩).2 = 1 := by
  have h := connection_use_after_close ⟨0, some ⟨7⟩⟩ ⟨7⟩ rfl
  exact ⟨h.2.1, h.1⟩

/-! ### C10: the composite metric -/

/-- C10: for positive power and throughput metrics, `get_results` returns
the triple whose first component is the square root of their product,
together with the power and throughput metrics themselves. -/
theorem get_results_qphh (b : Benchmark) (qi ri : List ℝ) (ts : ℝ)
    (hp : 0 < b._power_result qi ri)
    (ht : 0 < b._throughput_result ts) :
    b.get_results_metrics qi ri ts =
      (Real.sqrt (b._power_result qi ri * b._throughput_result ts),
       b._power_result qi ri, b._throughput_result ts) := by
  unfold Benchmark.get_results_metrics
  show ((b._power_result qi ri * b._throughput_result ts) ^ ((1 : ℝ) / 2),
    b._power_result qi ri, b._throughput_result ts) = _
  rw [← Real.sqrt_eq_rpow]

/-- Witness for C10 on concrete phase results (power 3600, throughput 66). -/
theorem get_results_qphh_witness :
    Benchmark.get_results_metrics ⟨3, 1⟩ (List.replicate 22 (1 : ℝ)) [1, 1] 3600 =
      (Real.sqrt
        (Benchmark._power_result ⟨3, 1⟩ (List.replicate 22 (1 : ℝ)) [1, 1] *
          Benchmark._throughput_result ⟨3, 1⟩ 3600),
       Benchmark._power_result ⟨3, 1⟩ (List.replicate 22 (1 : ℝ)) [1, 1],
       Benchmark._throughput_result ⟨3, 1⟩ 3600) :=
  get_results_qphh ⟨3, 1⟩ (List.replicate 22 (1 : ℝ)) [1, 1] 3600
    (by rw [power_result_ones]; norm_num)
    (by norm_num [Benchmark._throughput_result])

/-! ### Monadic loop lemmas for the query-set loop -/

/-- Mapping before a monadic map over `Option` fuses. -/
lemma mapM_map_option {α β γ : Type} (g : α → β) (f : β → Option γ) (l : List α) :
    (l.map g).mapM f = l.mapM (fun a => f (g a)) := by
  induction l with
  | nil => rfl
  | cons a t ih => simp only [List.map_cons, List.mapM_cons, ih]

/-- A loop over `range(len(l))` that starts each iteration by reading
`l[i]` is a monadic map over `l` itself. -/
lemma mapM_range_get {α β : Type} (l : List α) (f : α → Option β) :
    (List.range l.length).mapM (fun i => (l.get? i).bind f) = l.mapM f := by
  induction l with
  | nil => rfl
  | cons a t ih =>
    rw [List.length_cons, List.range_succ_eq_map, List.mapM_cons,
      mapM_map_option]
    simp only [List.get?_cons_zero, Option.some_bind, List.get?_cons_succ]
    rw [ih, List.mapM_cons]

/-- A monadic map whose body never fails is a plain map. -/
lemma mapM_eq_map_of_some {α β : Type} (l : List α) (f : α → Option β)
    (g : α → β) (h : ∀ a ∈ l, f a = some (g a)) :
    l.mapM f = some (l.map g) := by
  induction l with
  | nil => rfl
  | cons a t ih =>
    rw [List.mapM_cons, h a (List.mem_cons_self a t),
      ih (fun x hx => h x (List.mem_cons_of_mem a hx))]
    rfl

/-- Fusing a map into a monadic fold over `Option`. -/
lemma foldlM_map_option {α β σ : Type} (g : α → β) (f : σ → β → Option σ)
    (l : List α) (init : σ) :
    (l.map g).foldlM f init = l.foldlM (fun acc x => f acc (g x)) init := by
  induction l generalizing init with
  | nil => rfl
  | cons a t ih =>
    rw [List.map_cons, List.foldlM_cons, List.foldlM_cons]
    cases f init (g a) with
    | none => rfl
    | some s => simp only [Option.some_bind, ih]

/-- A fold over `range(len(l))` that starts each iteration by reading
`l[i]` is a monadic fold over `l` itself. -/
lemma foldlM_range_get {α σ : Type} (l : List α) (f : σ → α → Option σ)
    (init : σ) :
    (List.range l.length).foldlM
      (fun acc i => (l.get? i).bind (fun a => f acc a)) init =
    l.foldlM f init := by
  induction l generalizing init with
  | nil => rfl
  | cons a t ih =>
    rw [List.length_cons, List.range_succ_eq_map]
    simp only [List.foldlM_cons, List.get?_cons_zero, Option.some_bind]
    cases f init a with
    | none => rfl
    | some s =>
      show (List.map Nat.succ (List.range t.length)).foldlM
          (fun acc i => ((a :: t).get? i).bind fun x => f acc x) s =
        List.foldlM f s t
      rw [foldlM_map_option]
      simp only [List.get?_cons_succ]
      exact ih s

/-- A monadic fold whose body never fails is a plain fold. -/
lemma foldlM_eq_foldl_of_some {α σ : Type} (l : List α) (f : σ → α → Option σ)
    (g : σ → α → σ) (h : ∀ a ∈ l, ∀ acc, f acc a = some (g acc a)) (init : σ) :
    l.foldlM f init = some (l.foldl g init) := by
  induction l generalizing init with
  | nil => rfl
  | cons a t ih =>
    rw [List.foldlM_cons, h a (List.mem_cons_self a t) init]
    simp only [Option.some_bind, List.foldl_cons]
    exact ih (fun x hx acc => h x (List.mem_cons_of_mem a hx) acc) (g init a)

/-- In-range indexing returns the `getD` value. -/
lemma get?_eq_some_getD {α : Type} (l : List α) (i : ℕ) (d : α)
    (h : i < l.length) : l.get? i = some (l.getD i d) := by
  rw [List.get?_eq_get h, List.getD_eq_get l d h]

/-- Every entry of a stream permutation is between 1 and 22. -/
lemma mem_order_bounds {order : List ℕ} (hperm : order.Perm (List.range' 1 22))
    {q : ℕ} (hq : q ∈ order) : 1 ≤ q ∧ q < 23 := by
  have h := List.mem_range'_1.1 (hperm.subset hq)
  omega

/-- A stream permutation has length 22. -/
lemma order_length {order : List ℕ} (hperm : order.Perm (List.range' 1 22)) :
    order.length = 22 := by
  rw [hperm.length_eq, List.length_range']

/-- Every canonical query number occurs in a stream permutation. -/
lemma order_coverage {order : List ℕ} (hperm : order.Perm (List.range' 1 22))
    {j : ℕ} (hj : j < 22) : j + 1 ∈ order :=
  hperm.mem_iff.2 (List.mem_range'_1.2 (by omega))

/-- The query-set execution sequence, made explicit: under a valid
permutation and routing table the loop issues, for each entry `q` of the
stream order in turn, canonical index `q - 1` against replica
`routes[q - 1]`. -/
lemma run_query_set_events_spec (order routes : List ℕ)
    (hperm : order.Perm (List.range' 1 22)) (hlen : routes.length = 22) :
    QueryStream.run_query_set_events order routes =
      some (order.map (fun q => (q - 1, routes.getD (q - 1) 0))) := by
  have h2 : QueryStream.run_query_set_events order routes =
      (List.range order.length).mapM
        (fun i => (order.get? i).bind
          (fun q => (routes.get? (q - 1)).bind (fun r => some (q - 1, r)))) := by
    rw [order_length hperm]
    rfl
  rw [h2, mapM_range_get]
  apply mapM_eq_map_of_some
  intro q hq
  have hb := mem_order_bounds hperm hq
  rw [get?_eq_some_getD routes (q - 1) 0 (by omega)]
  rfl

/-! ### C6: query routing -/

/-- C6: for every routing table of length 22 and every stream permutation,
the query-set loop issues each canonical query exactly once, against the
replica named at that query's canonical index of the routing table, and
never against any other replica. -/
theorem query_routing (order routes : List ℕ)
    (hperm : order.Perm (List.range' 1 22)) (hlen : routes.length = 22) :
    ∃ evs, QueryStream.run_query_set_events order routes = some evs ∧
      evs.length = 22 ∧
      (∀ p ∈ evs, p.1 < 22 ∧ routes.get? p.1 = some p.2) ∧
      (∀ j, j < 22 → (evs.filter (fun p => p.1 = j)).length = 1) := by
  refine ⟨order.map (fun q => (q - 1, routes.getD (q - 1) 0)),
    run_query_set_events_spec order routes hperm hlen, ?_, ?_, ?_⟩
  · rw [List.length_map, order_length hperm]
  · intro p hp
    rw [List.mem_map] at hp
    obtain ⟨q, hq, rfl⟩ := hp
    have hb := mem_order_bounds hperm hq
    exact ⟨by omega, get?_eq_some_getD routes (q - 1) 0 (by omega)⟩
  · intro j hj
    rw [List.filter_map, List.length_map]
    have hcongr : List.filter
        ((fun p : ℕ × ℕ => decide (p.1 = j)) ∘
          (fun q => (q - 1, routes.getD (q - 1) 0))) order =
        List.filter (fun q => decide (q - 1 = j)) order :=
      List.filter_congr (fun q _ => rfl)
    rw [hcongr, (hperm.filter (fun q => decide (q - 1 = j))).length_eq]
    interval_cases j <;> decide

/-- Witness for C6 at the canonical order and the all-zero routing
table. -/
theorem query_routing_witness :
    ∃ evs, QueryStream.run_query_set_events (List.range' 1 22)
        (List.replicate 22 0) = some evs ∧
      evs.length = 22 ∧
      (∀ p ∈ evs, p.1 < 22 ∧ (List.replicate 22 0).get? p.1 = some p.2) ∧
      (∀ j, j < 22 → (evs.filter (fun p => p.1 = j)).length = 1) :=
  query_routing (List.range' 1 22) (List.replicate 22 0)
    (List.Perm.refl _) (by simp)

/-! ### C7: query times are indexed canonically -/

/-- The query-times loop, rephrased as a monadic fold over the stream
order. -/
lemma run_query_set_times_eq (order routes : List ℕ) (dur : ℕ → ℚ)
    (h : order.length = 22) :
    QueryStream.run_query_set_times order routes dur =
      order.foldlM
        (fun query_times q => (routes.get? (q - 1)).bind
          (fun _ => some (query_times.set (q - 1) (some (dur (q - 1))))))
        (List.replicate 22 none) := by
  have h2 : QueryStream.run_query_set_times order routes dur =
      (List.range order.length).foldlM
        (fun acc i => (order.get? i).bind
          (fun q => (routes.get? (q - 1)).bind
            (fun _ => some (acc.set (q - 1) (some (dur (q - 1)))))))
        (List.replicate 22 none) := by
    rw [h]
    rfl
  rw [h2, foldlM_range_get]

/-- The write loop never changes the length of the times array. -/
lemma foldl_set_length (xs : List ℕ) (dur : ℕ → ℚ) (acc : List (Option ℚ)) :
    (xs.foldl (fun a q => a.set (q - 1) (some (dur (q - 1)))) acc).length =
      acc.length := by
  induction xs generalizing acc with
  | nil => rfl
  | cons q t ih => rw [List.foldl_cons, ih, List.length_set]

/-- Contents of the times array after the write loop: a position whose
canonical query number occurs among the processed entries holds that
query's duration; all other positions keep their initial contents. -/
lemma foldl_set_get? (xs : List ℕ) (dur : ℕ → ℚ) (acc : List (Option ℚ))
    (j : ℕ) (h1 : ∀ q ∈ xs, 1 ≤ q) :
    (xs.foldl (fun a q => a.set (q - 1) (some (dur (q - 1)))) acc).get? j =
      if j + 1 ∈ xs ∧ j < acc.length then some (some (dur j))
      else acc.get? j := by
  induction xs generalizing acc with
  | nil => simp
  | cons q t ih =>
    rw [List.foldl_cons,
      ih (acc.set (q - 1) (some (dur (q - 1))))
        (fun x hx => h1 x (List.mem_cons_of_mem q hx)),
      List.length_set]
    have hq1 : 1 ≤ q := h1 q (List.mem_cons_self q t)
    by_cases hj : j < acc.length
    · by_cases ht : j + 1 ∈ t
      · simp [ht, hj, List.mem_cons]
      · by_cases hqj : q = j + 1
        · have hj' : q - 1 = j := by omega
          rw [hj']
          simp only [ht, hj, and_true, false_and, if_false, List.mem_cons]
          rw [List.get?_set_eq, List.get?_eq_get hj]
          simp [hqj]
        · have hne : q - 1 ≠ j := by omega
          rw [List.get?_set_ne _ _ hne]
          simp only [ht, hj, and_true, false_and, if_false, List.mem_cons]
          have hne2 : j + 1 ≠ q := by omega
          simp [hne2, ht]
    · simp only [hj, and_false, if_false]
      rw [List.get?_eq_none.2 (by rw [List.length_set]; omega),
        List.get?_eq_none.2 (by omega)]

/-- C7: for every stream permutation, the `query_times` array is indexed
by canonical query number, independent of execution order: the result is
the canonical array of durations, the same for every permutation. -/
theorem query_times_canonical (order routes : List ℕ) (dur : ℕ → ℚ)
    (hperm : order.Perm (List.range' 1 22)) (hlen : routes.length = 22) :
    QueryStream.run_query_set_times order routes dur =
      some ((List.range 22).map (fun e => some (dur e))) := by
  rw [run_query_set_times_eq order routes dur (order_length hperm),
    foldlM_eq_foldl_of_some order _
      (fun acc q => acc.set (q - 1) (some (dur (q - 1))))
      (fun q hq acc => by
        have hb := mem_order_bounds hperm hq
        rw [get?_eq_some_getD routes (q - 1) 0 (by omega)]
        rfl)
      (List.replicate 22 none)]
  congr 1
  apply List.ext_get?
  intro n
  rw [foldl_set_get? order dur (List.replicate 22 none) n
    (fun q hq => (mem_order_bounds hperm hq).1), List.length_replicate]
  by_cases hn : n < 22
  · have hcov := order_coverage hperm hn
    simp [hn, hcov, List.get?_map, List.get?_range hn]
  · simp only [hn, and_false, if_false]
    rw [List.get?_eq_none.2 (by rw [List.length_replicate]; omega),
      List.get?_eq_none.2 (by rw [List.length_map, List.length_range]; omega)]

/-- Witness for C7: the reversed canonical order still yields the
canonical times array. -/
theorem query_times_canonical_witness :
    QueryStream.run_query_set_times (List.range' 1 22).reverse
        (List.replicate 22 0) (fun e => (e : ℚ)) =
      some ((List.range 22).map (fun e => some ((e : ℚ)))) :=
  query_times_canonical (List.range' 1 22).reverse (List.replicate 22 0)
    (fun e => (e : ℚ)) (List.reverse_perm _) (by simp)

/-! ### C4: ordering of refresh functions and queries in the power role -/

/-- C4 counterexample: on the canonical order and a valid routing table,
the power-role trace places the first query strictly before refresh
function 2 of iteration 0, so RF2 does not complete before the queries
run. -/
theorem run_power_rf2_after_queries :
    (QueryStream.run_power_trace (List.range' 1 22)
      (List.replicate 22 0)).isSome = true ∧
    List.indexOf (QueryStream.PowerEvent.query 0 0)
        ((QueryStream.run_power_trace (List.range' 1 22)
          (List.replicate 22 0)).getD []) <
      List.indexOf (QueryStream.PowerEvent.rf2 0)
        ((QueryStream.run_power_trace (List.range' 1 22)
          (List.replicate 22 0)).getD []) := by
  constructor <;> decide

/-- C4 (amended): the power role runs refresh function 1 of iteration 0
first, then all 22 queries in the stream's prescribed order, then refresh
function 2 of iteration 0, and then finalizes. -/
theorem run_power_structure (order routes : List ℕ)
    (hperm : order.Perm (List.range' 1 22)) (hlen : routes.length = 22) :
    ∃ qevs, QueryStream.run_query_set_events order routes = some qevs ∧
      qevs.length = 22 ∧
      QueryStream.run_power_trace order routes =
        some (QueryStream.PowerEvent.rf1 0 ::
          (qevs.map (fun p => QueryStream.PowerEvent.query p.1 p.2) ++
            [QueryStream.PowerEvent.rf2 0, QueryStream.PowerEvent.finalise])) := by
  refine ⟨order.map (fun q => (q - 1, routes.getD (q - 1) 0)),
    run_query_set_events_spec order routes hperm hlen, ?_, ?_⟩
  · rw [List.length_map, order_length hperm]
  · unfold QueryStream.run_power_trace
    rw [run_query_set_events_spec order routes hperm hlen]
    rfl

/-- Witness for C4 (amended) at the canonical order and the all-zero
routing table. -/
theorem run_power_structure_witness :
    ∃ qevs, QueryStream.run_query_set_events (List.range' 1 22)
        (List.replicate 22 0) = some qevs ∧
      qevs.length = 22 ∧
      QueryStream.run_power_trace (List.range' 1 22) (List.replicate 22 0) =
        some (QueryStream.PowerEvent.rf1 0 ::
          (qevs.map (fun p => QueryStream.PowerEvent.query p.1 p.2) ++
            [QueryStream.PowerEvent.rf2 0, QueryStream.PowerEvent.finalise])) :=
  run_power_structure (List.range' 1 22) (List.replicate 22 0)
    (List.Perm.refl _) (by simp)

end TpchPsql
